import Mathlib

/-!
Verification of the cycle controller and audit ledger of the
Infinite-Money-Glitch repository.

The embedding below is a shallow model of `src/ledger/Ledger.ts` and
`src/agent/Agent.ts`.  JavaScript `bigint` amounts are modelled as `Int`,
`Date` values as milliseconds since the epoch (`Nat`), and the external
collaborators (wallet, bounty board, OpenClaw gateway, Walrus, explorer
browser) as explicit inputs of each cycle.  SHA-256 is modelled as an
abstract function `String → String`; the exact string that the code feeds
to the digest is reconstructed by an executable JSON serializer.
-/

namespace IMG

/-- Mirrors `TransactionDirection` in Ledger.ts. -/
inductive TransactionDirection
  | income
  | expense
deriving DecidableEq, Repr

/-- Mirrors `TransactionSource` in Ledger.ts. -/
inductive TransactionSource
  | bounty_reward
  | seal_encryption
  | walrus_storage
  | gas_fee
  | transfer
  | other
deriving DecidableEq, Repr

/-- Mirrors `LedgerEntry` in Ledger.ts.  `timestamp` is milliseconds since
the epoch; `amount` and `balanceAfter` are JavaScript bigints, modelled as
`Int`; the optional proof fields are `Option`s, with `none` standing for a
property whose value is `undefined` (omitted by `JSON.stringify`). -/
structure LedgerEntry where
  id : String
  timestamp : Nat
  direction : TransactionDirection
  source : TransactionSource
  amount : Int
  description : String
  taskHash : Option String := none
  bountyId : Option Int := none
  txDigest : Option String := none
  blobId : Option String := none
  sealPolicyId : Option String := none
  explorerUrl : Option String := none
  taskType : Option String := none
  balanceAfter : Option Int := none
deriving DecidableEq, Repr

/-- The fields of a `LedgerEntry` other than `id` and `timestamp`:
the argument type `Omit<LedgerEntry, 'id' | 'timestamp'>` of
`Ledger.record`. -/
structure EntryData where
  direction : TransactionDirection
  source : TransactionSource
  amount : Int
  description : String
  taskHash : Option String := none
  bountyId : Option Int := none
  txDigest : Option String := none
  blobId : Option String := none
  sealPolicyId : Option String := none
  explorerUrl : Option String := none
  taskType : Option String := none
  balanceAfter : Option Int := none
deriving DecidableEq, Repr

/-- The mutable state of a `Ledger` instance: the append-only entry array
and the wallet explorer URL from the constructor config. -/
structure LedgerState where
  entries : List LedgerEntry
  walletExplorerUrl : String
deriving DecidableEq, Repr

/-- A fresh `new Ledger()` with no config. -/
def Ledger.new : LedgerState := { entries := [], walletExplorerUrl := "" }

/-- Mirrors `Ledger.record`.  The effects of `randomUUID()` and
`new Date()` are passed in as the explicit arguments `id` and `timestamp`.
Returns the stored entry and the updated ledger. -/
def LedgerState.record (l : LedgerState) (id : String) (timestamp : Nat)
    (e : EntryData) : LedgerEntry × LedgerState :=
  let fullEntry : LedgerEntry :=
    { id := id
      timestamp := timestamp
      direction := e.direction
      source := e.source
      amount := e.amount
      description := e.description
      taskHash := e.taskHash
      bountyId := e.bountyId
      txDigest := e.txDigest
      blobId := e.blobId
      sealPolicyId := e.sealPolicyId
      explorerUrl := e.explorerUrl
      taskType := e.taskType
      balanceAfter := e.balanceAfter }
  (fullEntry, { l with entries := l.entries ++ [fullEntry] })

/-- Mirrors `ClaimResult` in Earner.ts (`rewardAmount` is a bigint). -/
structure ClaimResult where
  bountyId : Int
  rewardAmount : Int
  txDigest : String
  explorerUrl : String
  proofHash : String
  success : Bool
  error : Option String := none
deriving DecidableEq, Repr

/-- Mirrors `EarnResult` in Earner.ts. -/
structure EarnResult where
  tasksFound : Nat
  tasksCompleted : Nat
  totalEarned : Int
  claims : List ClaimResult
  timestamp : Nat
deriving DecidableEq, Repr

/-- Mirrors `EncryptResult` in Spender.ts, restricted to the field the
Ledger consumes (`sealPolicyId`); the ciphertext bytes and size counters
are byte-level data outside the scope of this model. -/
structure EncryptResult where
  sealPolicyId : String
deriving DecidableEq, Repr

/-- Mirrors `UploadResult` in Spender.ts, restricted to the fields the
Ledger and the Agent consume. -/
structure UploadResult where
  blobId : String
  txDigest : String
  explorerUrl : String
deriving DecidableEq, Repr

/-- Mirrors `ProtectionResult` in Spender.ts (`gasSpent` is a bigint). -/
structure ProtectionResult where
  label : String
  encryption : EncryptResult
  upload : UploadResult
  gasSpent : Int
  success : Bool
  error : Option String := none
deriving DecidableEq, Repr

/-- Mirrors `SpendResult` in Spender.ts. -/
structure SpendResult where
  itemsProtected : Nat
  totalGasSpent : Int
  protections : List ProtectionResult
  timestamp : Nat
deriving DecidableEq, Repr

/-- Mirrors `Ledger.recordEarning`: fixed direction `income`, fixed source
`bounty_reward`, and all four proof fields copied from the claim (the
fields are non-optional strings on `ClaimResult`, so the stored entry
always carries them as defined properties). -/
def LedgerState.recordEarning (l : LedgerState) (id : String) (timestamp : Nat)
    (claimResult : ClaimResult) : LedgerEntry × LedgerState :=
  l.record id timestamp
    { direction := .income
      source := .bounty_reward
      amount := claimResult.rewardAmount
      description := "Bounty #" ++ toString claimResult.bountyId ++ " reward claimed"
      taskHash := some claimResult.proofHash
      bountyId := some claimResult.bountyId
      txDigest := some claimResult.txDigest
      explorerUrl := some claimResult.explorerUrl }

/-- Mirrors `Ledger.recordSpending`: fixed direction `expense`, fixed
source `seal_encryption`, proof fields copied from the protection result
(`encryption` and `upload` are non-optional on `ProtectionResult`, so the
optional chaining in the source always finds them). -/
def LedgerState.recordSpending (l : LedgerState) (id : String) (timestamp : Nat)
    (protectionResult : ProtectionResult) : LedgerEntry × LedgerState :=
  l.record id timestamp
    { direction := .expense
      source := .seal_encryption
      amount := protectionResult.gasSpent
      description := "Protected \"" ++ protectionResult.label ++ "\""
      blobId := some protectionResult.upload.blobId
      sealPolicyId := some protectionResult.encryption.sealPolicyId
      txDigest := some protectionResult.upload.txDigest
      explorerUrl := some protectionResult.upload.explorerUrl }

/-- Mirrors `LedgerFilter` in Ledger.ts; `fromT`/`toT` stand for the
source fields `from`/`to` (`from` is a reserved word in Lean). -/
structure LedgerFilter where
  fromT : Option Nat := none
  toT : Option Nat := none
  direction : Option TransactionDirection := none
  source : Option TransactionSource := none
deriving DecidableEq, Repr

/-- Mirrors the predicate inside `Ledger.getEntries`: an entry passes when
every supplied filter component accepts it (a supplied `Date` or enum
value is always truthy in the source guards). -/
def entryMatches (f : LedgerFilter) (e : LedgerEntry) : Bool :=
  (match f.fromT with
   | some fr => decide (fr ≤ e.timestamp)
   | none => true) &&
  (match f.toT with
   | some t => decide (e.timestamp ≤ t)
   | none => true) &&
  (match f.direction with
   | some d => e.direction == d
   | none => true) &&
  (match f.source with
   | some s => e.source == s
   | none => true)

/-- Mirrors `Ledger.getEntries`: no filter returns a copy of all entries,
otherwise entries are filtered in insertion order. -/
def LedgerState.getEntries (l : LedgerState) (filter : Option LedgerFilter) :
    List LedgerEntry :=
  match filter with
  | none => l.entries
  | some f => l.entries.filter (entryMatches f)

/-- Mirrors `ProfitLossReport` in Ledger.ts.  The nested `period` object
is flattened into `periodFrom`/`periodTo`.  `profitMargin` is a JavaScript
64-bit float computed by `Number(netProfit) / Number(totalIncome)`; it is
modelled as the exact rational quotient.  The two `Map`s are modelled as
association lists in key-insertion order (JavaScript `Map` semantics). -/
structure ProfitLossReport where
  periodFrom : Nat
  periodTo : Nat
  totalIncome : Int
  totalExpense : Int
  netProfit : Int
  profitMargin : ℚ
  transactionCount : Nat
  incomeBySource : List (TransactionSource × Int)
  expenseBySource : List (TransactionSource × Int)
  walletExplorerUrl : String
deriving DecidableEq, Repr

/-- JavaScript `Map.get(k) || 0n`: the stored value, or 0 when absent. -/
def mapGetD (m : List (TransactionSource × Int)) (k : TransactionSource) : Int :=
  match m.find? (fun p => p.1 == k) with
  | some p => p.2
  | none => 0

/-- JavaScript `Map.set(k, v)`: overwrite in place when the key exists,
otherwise append, preserving insertion order. -/
def mapSet (m : List (TransactionSource × Int)) (k : TransactionSource) (v : Int) :
    List (TransactionSource × Int) :=
  if m.any (fun p => p.1 == k) then
    m.map (fun p => if p.1 == k then (k, v) else p)
  else
    m ++ [(k, v)]

/-- The accumulator of the entry loop in `Ledger.generatePnL`:
running income total, expense total, and the two per-source maps. -/
structure PnLAcc where
  totalIncome : Int
  totalExpense : Int
  incomeBySource : List (TransactionSource × Int)
  expenseBySource : List (TransactionSource × Int)
deriving DecidableEq, Repr

/-- One iteration of the entry loop in `Ledger.generatePnL`. -/
def pnlStep (acc : PnLAcc) (e : LedgerEntry) : PnLAcc :=
  match e.direction with
  | .income =>
      { acc with
        totalIncome := acc.totalIncome + e.amount
        incomeBySource :=
          mapSet acc.incomeBySource e.source (mapGetD acc.incomeBySource e.source + e.amount) }
  | .expense =>
      { acc with
        totalExpense := acc.totalExpense + e.amount
        expenseBySource :=
          mapSet acc.expenseBySource e.source (mapGetD acc.expenseBySource e.source + e.amount) }

/-- Mirrors `Ledger.generatePnL`.  `now` is the value `new Date()` would
produce for the period defaults when the ledger is empty. -/
def LedgerState.generatePnL (l : LedgerState) (fromT toT : Option Nat) (now : Nat) :
    ProfitLossReport :=
  let filtered := l.getEntries (some { fromT := fromT, toT := toT })
  let acc := filtered.foldl pnlStep ⟨0, 0, [], []⟩
  let netProfit := acc.totalIncome - acc.totalExpense
  let profitMargin : ℚ :=
    if 0 < acc.totalIncome then (netProfit : ℚ) / (acc.totalIncome : ℚ) else 0
  { periodFrom := ((fromT).orElse (fun _ => (filtered.head?).map (·.timestamp))).getD now
    periodTo := ((toT).orElse (fun _ => (filtered.getLast?).map (·.timestamp))).getD now
    totalIncome := acc.totalIncome
    totalExpense := acc.totalExpense
    netProfit := netProfit
    profitMargin := profitMargin
    transactionCount := filtered.length
    incomeBySource := acc.incomeBySource
    expenseBySource := acc.expenseBySource
    walletExplorerUrl := l.walletExplorerUrl }

/-- One element of `AuditPackage.onChainTransactions` in Ledger.ts. -/
structure OnChainTx where
  digest : String
  explorerUrl : String
  direction : TransactionDirection
  amount : Int
  source : TransactionSource
deriving DecidableEq, Repr

/-- One element of `AuditPackage.encryptedStorage` in Ledger.ts. -/
structure EncryptedStorageItem where
  blobId : String
  sealPolicyId : String
  label : String
  size : Nat
deriving DecidableEq, Repr

/-- One element of `AuditPackage.workProofs` in Ledger.ts. -/
structure WorkProof where
  taskHash : String
  bountyId : Int
  txDigest : String
deriving DecidableEq, Repr

/-- Mirrors `AuditPackage` in Ledger.ts.  `generatedAt` is milliseconds
since the epoch. -/
structure AuditPackage where
  generatedAt : Nat
  agentAddress : String
  walletExplorerUrl : String
  entries : List LedgerEntry
  profitLoss : ProfitLossReport
  onChainTransactions : List OnChainTx
  encryptedStorage : List EncryptedStorageItem
  workProofs : List WorkProof
  checksum : String
deriving DecidableEq, Repr

/-- The two external primitives used by the checksum computation, modelled
abstractly: `hash` is the hex SHA-256 digest of a string, and `floatJson`
is the JSON rendering of the 64-bit float `profitMargin` (the only
non-integral number in the hashed structure); both are deterministic
functions in JavaScript, which is all the theorems below rely on. -/
structure SerializeModel where
  hash : String → String
  floatJson : ℚ → String

/-- JavaScript truthiness of an optional string: defined and non-empty. -/
def truthyStr : Option String → Bool
  | some s => s != ""
  | none => false

/-- Two-digit zero-padded decimal. -/
def pad2 (n : Nat) : String :=
  if n < 10 then "0" ++ toString n else toString n

/-- Three-digit zero-padded decimal. -/
def pad3 (n : Nat) : String :=
  if n < 10 then "00" ++ toString n
  else if n < 100 then "0" ++ toString n
  else toString n

/-- Civil date (year, month, day) of a day count since 1970-01-01,
following the standard era-based conversion. -/
def civilOfDays (z : Nat) : Nat × Nat × Nat :=
  let z2 := z + 719468
  let era := z2 / 146097
  let doe := z2 % 146097
  let yoe := (doe - doe / 1460 + doe / 36524 - doe / 146096) / 365
  let y := yoe + era * 400
  let doy := doe - (365 * yoe + yoe / 4 - yoe / 100)
  let mp := (5 * doy + 2) / 153
  let d := doy - (153 * mp + 2) / 5 + 1
  let m := if mp < 10 then mp + 3 else mp - 9
  let y2 := if m ≤ 2 then y + 1 else y
  (y2, m, d)

/-- `Date.prototype.toISOString` on a millisecond timestamp, the string
`JSON.stringify` produces for a `Date` value (via `toJSON`). -/
def isoOfMs (t : Nat) : String :=
  let days := t / 86400000
  let msInDay := t % 86400000
  let hh := msInDay / 3600000
  let mi := msInDay % 3600000 / 60000
  let ss := msInDay % 60000 / 1000
  let ms := msInDay % 1000
  let ymd := civilOfDays days
  toString ymd.1 ++ "-" ++ pad2 ymd.2.1 ++ "-" ++ pad2 ymd.2.2 ++ "T" ++
    pad2 hh ++ ":" ++ pad2 mi ++ ":" ++ pad2 ss ++ "." ++ pad3 ms ++ "Z"

/-- One hex digit. -/
def hexDigit (n : Nat) : String :=
  if n < 10 then toString n
  else if n = 10 then "a" else if n = 11 then "b" else if n = 12 then "c"
  else if n = 13 then "d" else if n = 14 then "e" else "f"

/-- JSON escaping of one character, as `JSON.stringify` performs it. -/
def jsonEscapeChar (c : Char) : String :=
  if c = '"' then "\\\""
  else if c = '\\' then "\\\\"
  else if c = '\n' then "\\n"
  else if c = '\r' then "\\r"
  else if c = '\t' then "\\t"
  else if c.toNat = 8 then "\\b"
  else if c.toNat = 12 then "\\f"
  else if c.toNat < 32 then
    "\\u00" ++ hexDigit (c.toNat / 16) ++ hexDigit (c.toNat % 16)
  else String.singleton c

/-- A JSON string literal, as `JSON.stringify` renders a string. -/
def jsonStr (s : String) : String :=
  "\"" ++ String.join (s.toList.map jsonEscapeChar) ++ "\""

/-- The serialized form of a `TransactionDirection`. -/
def directionStr : TransactionDirection → String
  | .income => "income"
  | .expense => "expense"

/-- The serialized form of a `TransactionSource`. -/
def sourceStr : TransactionSource → String
  | .bounty_reward => "bounty_reward"
  | .seal_encryption => "seal_encryption"
  | .walrus_storage => "walrus_storage"
  | .gas_fee => "gas_fee"
  | .transfer => "transfer"
  | .other => "other"

/-- A key-value JSON member. -/
def jsonMember (key val : String) : String :=
  jsonStr key ++ ":" ++ val

/-- A JSON object from a member list. -/
def jsonObj (members : List String) : String :=
  "\x7b" ++ String.intercalate "," members ++ "\x7d"

/-- A JSON array. -/
def jsonArr (items : List String) : String :=
  "[" ++ String.intercalate "," items ++ "]"

/-- The `JSON.stringify` rendering of one `LedgerEntry` under the bigint
replacer (bigints become decimal strings, `undefined` properties are
omitted).  JavaScript objects serialize keys in insertion order; the fixed
order used here agrees with the insertion order of both entry producers in
the repository (`recordEarning`: taskHash, bountyId, txDigest,
explorerUrl; `recordSpending`: blobId, sealPolicyId, txDigest,
explorerUrl), since neither producer sets fields from the other group. -/
def entryJson (e : LedgerEntry) : String :=
  jsonObj (
    [ jsonMember "id" (jsonStr e.id)
    , jsonMember "timestamp" (jsonStr (isoOfMs e.timestamp))
    , jsonMember "direction" (jsonStr (directionStr e.direction))
    , jsonMember "source" (jsonStr (sourceStr e.source))
    , jsonMember "amount" (jsonStr (toString e.amount))
    , jsonMember "description" (jsonStr e.description) ] ++
    (List.filterMap id
      [ e.taskHash.map (fun v => jsonMember "taskHash" (jsonStr v))
      , e.bountyId.map (fun v => jsonMember "bountyId" (toString v))
      , e.blobId.map (fun v => jsonMember "blobId" (jsonStr v))
      , e.sealPolicyId.map (fun v => jsonMember "sealPolicyId" (jsonStr v))
      , e.txDigest.map (fun v => jsonMember "txDigest" (jsonStr v))
      , e.explorerUrl.map (fun v => jsonMember "explorerUrl" (jsonStr v))
      , e.taskType.map (fun v => jsonMember "taskType" (jsonStr v))
      , e.balanceAfter.map (fun v => jsonMember "balanceAfter" (jsonStr (toString v))) ]))

/-- The `JSON.stringify` rendering of a `ProfitLossReport`.  JavaScript
`Map` objects have no enumerable properties, so `incomeBySource` and
`expenseBySource` serialize as empty objects. -/
def pnlJson (sm : SerializeModel) (p : ProfitLossReport) : String :=
  jsonObj
    [ jsonMember "period" (jsonObj
        [ jsonMember "from" (jsonStr (isoOfMs p.periodFrom))
        , jsonMember "to" (jsonStr (isoOfMs p.periodTo)) ])
    , jsonMember "totalIncome" (jsonStr (toString p.totalIncome))
    , jsonMember "totalExpense" (jsonStr (toString p.totalExpense))
    , jsonMember "netProfit" (jsonStr (toString p.netProfit))
    , jsonMember "profitMargin" (sm.floatJson p.profitMargin)
    , jsonMember "transactionCount" (toString p.transactionCount)
    , jsonMember "incomeBySource" "\x7b\x7d"
    , jsonMember "expenseBySource" "\x7b\x7d"
    , jsonMember "walletExplorerUrl" (jsonStr p.walletExplorerUrl) ]

/-- The `JSON.stringify` rendering of one on-chain transaction summary. -/
def onChainTxJson (t : OnChainTx) : String :=
  jsonObj
    [ jsonMember "digest" (jsonStr t.digest)
    , jsonMember "explorerUrl" (jsonStr t.explorerUrl)
    , jsonMember "direction" (jsonStr (directionStr t.direction))
    , jsonMember "amount" (jsonStr (toString t.amount))
    , jsonMember "source" (jsonStr (sourceStr t.source)) ]

/-- The `JSON.stringify` rendering of one encrypted-storage summary. -/
def storageItemJson (s : EncryptedStorageItem) : String :=
  jsonObj
    [ jsonMember "blobId" (jsonStr s.blobId)
    , jsonMember "sealPolicyId" (jsonStr s.sealPolicyId)
    , jsonMember "label" (jsonStr s.label)
    , jsonMember "size" (toString s.size) ]

/-- The `JSON.stringify` rendering of one work-proof summary. -/
def workProofJson (w : WorkProof) : String :=
  jsonObj
    [ jsonMember "taskHash" (jsonStr w.taskHash)
    , jsonMember "bountyId" (toString w.bountyId)
    , jsonMember "txDigest" (jsonStr w.txDigest) ]

/-- The exact string `generateAuditPackage` feeds to SHA-256: the
`JSON.stringify` of `packageData`, i.e. of every field of the audit
package except `checksum`, under the bigint replacer. -/
def serializeAuditFields (sm : SerializeModel) (p : AuditPackage) : String :=
  jsonObj
    [ jsonMember "generatedAt" (jsonStr (isoOfMs p.generatedAt))
    , jsonMember "agentAddress" (jsonStr p.agentAddress)
    , jsonMember "walletExplorerUrl" (jsonStr p.walletExplorerUrl)
    , jsonMember "entries" (jsonArr (p.entries.map entryJson))
    , jsonMember "profitLoss" (pnlJson sm p.profitLoss)
    , jsonMember "onChainTransactions" (jsonArr (p.onChainTransactions.map onChainTxJson))
    , jsonMember "encryptedStorage" (jsonArr (p.encryptedStorage.map storageItemJson))
    , jsonMember "workProofs" (jsonArr (p.workProofs.map workProofJson)) ]

/-- Mirrors `Ledger.generateAuditPackage`.  `now` is the value
`new Date()` produces during the call, used both for `generatedAt` and
for the period defaults inside the embedded `generatePnL()`. -/
def LedgerState.generateAuditPackage (l : LedgerState) (sm : SerializeModel)
    (now : Nat) (agentAddress : String) : AuditPackage :=
  let entries := l.getEntries none
  let profitLoss := l.generatePnL none none now
  let onChainTransactions : List OnChainTx :=
    (entries.filter (fun e => truthyStr e.txDigest)).map (fun e =>
      { digest := e.txDigest.getD ""
        explorerUrl := e.explorerUrl.getD ""
        direction := e.direction
        amount := e.amount
        source := e.source })
  let encryptedStorage : List EncryptedStorageItem :=
    (entries.filter (fun e => truthyStr e.blobId)).map (fun e =>
      { blobId := e.blobId.getD ""
        sealPolicyId := e.sealPolicyId.getD ""
        label := e.description
        size := 0 })
  let workProofs : List WorkProof :=
    (entries.filter (fun e => truthyStr e.taskHash && e.bountyId.isSome)).map (fun e =>
      { taskHash := e.taskHash.getD ""
        bountyId := e.bountyId.getD 0
        txDigest := e.txDigest.getD "" })
  let packageData : AuditPackage :=
    { generatedAt := now
      agentAddress := agentAddress
      walletExplorerUrl := l.walletExplorerUrl
      entries := entries
      profitLoss := profitLoss
      onChainTransactions := onChainTransactions
      encryptedStorage := encryptedStorage
      workProofs := workProofs
      checksum := "" }
  { packageData with checksum := sm.hash (serializeAuditFields sm packageData) }

/-- Mirrors `AgentMode` in Agent.ts. -/
inductive AgentMode
  | NORMAL
  | STARVATION
  | ERROR
deriving DecidableEq, Repr

/-- Mirrors `AgentState` in Agent.ts (`totalEarned`/`totalSpent` are
bigints, `lastCycleAt` a nullable `Date`). -/
structure AgentState where
  mode : AgentMode
  cycleCount : Nat
  lastCycleAt : Option Nat
  consecutiveFailures : Nat
  totalEarned : Int
  totalSpent : Int
  walletExplorerUrl : String
deriving DecidableEq, Repr

/-- The initial field value of `Agent.state`. -/
def initialAgentState : AgentState :=
  { mode := .NORMAL
    cycleCount := 0
    lastCycleAt := none
    consecutiveFailures := 0
    totalEarned := 0
    totalSpent := 0
    walletExplorerUrl := "" }

/-- Mirrors `HealthCheckResult` in Agent.ts. -/
structure HealthCheckResult where
  balance : Int
  sufficientBalance : Bool
  bountyBoardReachable : Bool
  openclawGatewayReachable : Bool
  recommendedMode : AgentMode
deriving DecidableEq, Repr

/-- One element of `VerifyResult.details` in Agent.ts. -/
structure VerifyDetail where
  txDigest : String
  verified : Bool
  explorerUrl : String
deriving DecidableEq, Repr

/-- Mirrors `VerifyResult` in Agent.ts. -/
structure VerifyResult where
  transactionsVerified : Nat
  allVerified : Bool
  screenshotUrl : Option String
  details : List VerifyDetail
deriving DecidableEq, Repr

/-- Mirrors `ReportResult` in Agent.ts.  The two strings are produced by
`generateReport`; `nextCycleAt` is a millisecond timestamp. -/
structure ReportResult where
  pnlSummary : String
  survivalStatus : String
  nextCycleAt : Nat
deriving DecidableEq, Repr

/-- Mirrors `CycleResult.phases` in Agent.ts. -/
structure CyclePhases where
  healthCheck : HealthCheckResult
  earn : Option EarnResult
  spend : Option SpendResult
  audit : Option AuditPackage
  verify : Option VerifyResult
  report : ReportResult
deriving DecidableEq, Repr

/-- Mirrors `CycleResult` in Agent.ts.  `error := none` models an absent
`error` property; `some s` a caught exception message `s`. -/
structure CycleResult where
  cycleNumber : Nat
  mode : AgentMode
  phases : CyclePhases
  duration : Nat
  success : Bool
  error : Option String
deriving DecidableEq, Repr

/-- The controller instance: its mutable `state`, its private `Ledger`,
and the configuration values `runCycle` consults.  The wallet address and
network come from the initialized wallet/config. -/
structure AgentData where
  state : AgentState
  ledger : LedgerState
  starvationThreshold : Int
  cycleIntervalMinutes : Nat
  network : String
  walletAddress : String

/-- A fresh controller after `initialize()`: zeroed state and an empty
ledger. -/
def mkAgent (starvationThreshold : Int) (cycleIntervalMinutes : Nat)
    (network walletAddress : String) : AgentData :=
  { state := initialAgentState
    ledger := Ledger.new
    starvationThreshold := starvationThreshold
    cycleIntervalMinutes := cycleIntervalMinutes
    network := network
    walletAddress := walletAddress }

/-- The external world as one cycle observes it.  Every collaborator call
of `runCycle` is an awaited, possibly-throwing operation; a thrown
exception is an `Except.error` carrying its message.  `uuids` is the
`randomUUID()` stream, indexed by the number of ledger entries already
stored; `verifiedOf` collapses the explorer-browser interaction of
`verifyOnChain` (including the token check) into the boolean it ends up
assigning per digest. -/
structure CycleEnv where
  now : Nat
  endTime : Nat
  balanceOutcome : Except String Int
  bountyBoardReachable : Bool
  openclawGatewayReachable : Bool
  earnOutcome : Except String EarnResult
  spendOutcome : Except String SpendResult
  verifiedOf : String → Bool
  screenshotUrl : Option String
  uuids : Nat → String
  serialize : SerializeModel

/-- Mirrors `Agent.healthCheck`.  The balance query may throw; the two
reachability probes cannot (their exceptions are swallowed by the inner
try/catch blocks of the source).  The recommended mode is computed by the
two sequential overwrites of the source: `STARVATION` when the balance is
not strictly above the threshold, then `ERROR` when
`consecutiveFailures >= 3`. -/
def healthCheck (a : AgentData) (env : CycleEnv) : Except String HealthCheckResult :=
  match env.balanceOutcome with
  | .error e => .error e
  | .ok balance =>
    let sufficientBalance : Bool := decide (a.starvationThreshold < balance)
    let recommendedMode : AgentMode := .NORMAL
    let recommendedMode := if !sufficientBalance then .STARVATION else recommendedMode
    let recommendedMode :=
      if a.state.consecutiveFailures ≥ 3 then .ERROR else recommendedMode
    .ok
      { balance := balance
        sufficientBalance := sufficientBalance
        bountyBoardReachable := env.bountyBoardReachable
        openclawGatewayReachable := env.openclawGatewayReachable
        recommendedMode := recommendedMode }

/-- The earn-phase loop of `runCycle`: for each successful claim, record
an income entry and add its reward to the running total; unsuccessful
claims are skipped. -/
def applyEarnClaims (env : CycleEnv) : List ClaimResult →
    LedgerState × Int → LedgerState × Int
  | [], acc => acc
  | claim :: rest, acc =>
      applyEarnClaims env rest
        (if claim.success then
          ((acc.1.recordEarning (env.uuids acc.1.entries.length) env.now claim).2,
           acc.2 + claim.rewardAmount)
        else acc)

/-- The spend-phase loop of `runCycle`: for each successful protection,
record an expense entry and add its gas to the running total;
unsuccessful protections are skipped. -/
def applySpendProtections (env : CycleEnv) : List ProtectionResult →
    LedgerState × Int → LedgerState × Int
  | [], acc => acc
  | protection :: rest, acc =>
      applySpendProtections env rest
        (if protection.success then
          ((acc.1.recordSpending (env.uuids acc.1.entries.length) env.now protection).2,
           acc.2 + protection.gasSpent)
        else acc)

/-- Mirrors `Agent.collectTxDigests`: claim digests then protection upload
digests, truthy ones only, de-duplicated preserving first occurrence
(`[...new Set(digests)]`). -/
def collectTxDigests (phases : CyclePhases) : List String :=
  let earnDigests :=
    match phases.earn with
    | some er =>
        (er.claims.filter (fun (c : ClaimResult) => c.txDigest != "")).map
          (fun (c : ClaimResult) => c.txDigest)
    | none => []
  let spendDigests :=
    match phases.spend with
    | some sr =>
        (sr.protections.filter (fun (p : ProtectionResult) => p.upload.txDigest != "")).map
          (fun (p : ProtectionResult) => p.upload.txDigest)
    | none => []
  (earnDigests ++ spendDigests).foldl
    (fun acc d => if acc.contains d then acc else acc ++ [d]) []

/-- Mirrors `Agent.verifyOnChain`: one detail per digest, with the
explorer URL built from the network, and the verification boolean supplied
by the external browser interaction. -/
def verifyOnChain (a : AgentData) (env : CycleEnv) (txDigests : List String) :
    VerifyResult :=
  let details := txDigests.map (fun digest =>
    { txDigest := digest
      verified := env.verifiedOf digest
      explorerUrl := "https://suiscan.xyz/" ++ a.network ++ "/tx/" ++ digest
      : VerifyDetail })
  let transactionsVerified := (details.filter (·.verified)).length
  { transactionsVerified := transactionsVerified
    allVerified :=
      if details.length > 0 then transactionsVerified == details.length else true
    screenshotUrl := env.screenshotUrl
    details := details }

/-- Exact decimal rendering of a rational to `k` places, rounding ties
away from zero; stands in for `Number.prototype.toFixed` in the report
strings (which no proved claim inspects). -/
def fmtFixed (k : Nat) (q : ℚ) : String :=
  let scaled : ℤ := (q.num.natAbs * 10 ^ k + q.den / 2 : ℕ) / q.den
  let sign := if q.num < 0 then "-" else ""
  let whole := scaled / 10 ^ k
  let frac := (scaled % 10 ^ k).toNat
  let fracStr := toString (frac + 10 ^ k)
  sign ++ toString whole ++ "." ++ (fracStr.drop 1)

/-- Mirrors `Agent.generateReport`: the profit/loss summary string, the
survival status keyed off the sign of the net profit, and the next-cycle
timestamp. -/
def generateReport (a : AgentData) (env : CycleEnv) : ReportResult :=
  let pnl := a.ledger.generatePnL none none env.now
  let netProfit : ℚ := (pnl.netProfit : ℚ) / 1000000000
  let totalIncome : ℚ := (pnl.totalIncome : ℚ) / 1000000000
  let totalExpense : ℚ := (pnl.totalExpense : ℚ) / 1000000000
  let survivalStatus :=
    if pnl.netProfit > 0 then "🟢 PROFITABLE — Agent is self-sustaining"
    else if pnl.netProfit = 0 then "🟡 BREAK-EVEN — Agent is surviving"
    else "🔴 LOSS — Agent needs more bounties"
  { pnlSummary := String.intercalate "\n"
      [ "Income: +" ++ fmtFixed 4 totalIncome ++ " SUI"
      , "Expense: -" ++ fmtFixed 4 totalExpense ++ " SUI"
      , "Net: " ++ (if netProfit ≥ 0 then "+" else "") ++ fmtFixed 4 netProfit ++ " SUI"
      , "Margin: " ++ fmtFixed 1 (pnl.profitMargin * 100) ++ "%"
      , "Wallet: " ++ a.state.walletExplorerUrl ]
    survivalStatus := survivalStatus
    nextCycleAt := env.endTime + a.cycleIntervalMinutes * 60 * 1000 }

/-- The `phases` object as initialized at the top of `runCycle`, before
the try block runs (its `recommendedMode` placeholder is the current
`state.mode`). -/
def initPhases (a : AgentData) (env : CycleEnv) : CyclePhases :=
  { healthCheck :=
      { balance := 0
        sufficientBalance := false
        bountyBoardReachable := false
        openclawGatewayReachable := false
        recommendedMode := a.state.mode }
    earn := none
    spend := none
    audit := none
    verify := none
    report := { pnlSummary := "", survivalStatus := "", nextCycleAt := env.now } }

/-- The catch block of `runCycle`: increment `consecutiveFailures`,
return an unsuccessful result carrying the caught message and the phases
populated so far. -/
def failCycle (cycleNumber : Nat) (st : AgentState) (phases : CyclePhases)
    (env : CycleEnv) (e : String) : CycleResult × AgentState :=
  ({ cycleNumber := cycleNumber
     mode := st.mode
     phases := phases
     duration := env.endTime - env.now
     success := false
     error := some e },
   { st with consecutiveFailures := st.consecutiveFailures + 1 })

/-- The tail of the success path of `runCycle`: audit, verify, report,
reset `consecutiveFailures`, stamp `lastCycleAt`. -/
def finishCycle (a : AgentData) (env : CycleEnv) (cycleNumber : Nat)
    (st : AgentState) (ledger : LedgerState) (phases : CyclePhases) :
    CycleResult × AgentData :=
  let audit := ledger.generateAuditPackage env.serialize env.now a.walletAddress
  let phases := { phases with audit := some audit }
  let digests := collectTxDigests phases
  let phases :=
    { phases with
      verify := if digests.length > 0 then some (verifyOnChain a env digests) else none }
  let phases := { phases with report := generateReport { a with ledger := ledger } env }
  let stFinal := { st with consecutiveFailures := 0, lastCycleAt := some env.endTime }
  ({ cycleNumber := cycleNumber
     mode := stFinal.mode
     phases := phases
     duration := env.endTime - env.now
     success := true
     error := none },
   { a with state := stFinal, ledger := ledger })

/-- Mirrors `Agent.runCycle`: increment the counter unconditionally, run
the health check, adopt the recommended mode, abort when the bounty board
is unreachable, earn, (unless starving) spend, audit, verify, report.
Every thrown exception lands in `failCycle`; the ledger writes and state
updates made before the throw persist. -/
def runCycle (a : AgentData) (env : CycleEnv) : CycleResult × AgentData :=
  let st0 := { a.state with cycleCount := a.state.cycleCount + 1 }
  let cycleNumber := st0.cycleCount
  let phases0 := initPhases a env
  match healthCheck a env with
  | .error e =>
      let r := failCycle cycleNumber st0 phases0 env e
      (r.1, { a with state := r.2 })
  | .ok hc =>
      let phases1 := { phases0 with healthCheck := hc }
      let st1 := { st0 with mode := hc.recommendedMode }
      if !hc.bountyBoardReachable then
        let r := failCycle cycleNumber st1 phases1 env "BountyBoard contract unreachable"
        (r.1, { a with state := r.2 })
      else
        match env.earnOutcome with
        | .error e =>
            let r := failCycle cycleNumber st1 phases1 env e
            (r.1, { a with state := r.2 })
        | .ok earnRes =>
            let phases2 := { phases1 with earn := some earnRes }
            let earned := applyEarnClaims env earnRes.claims (a.ledger, st1.totalEarned)
            let st2 := { st1 with totalEarned := earned.2 }
            if st2.mode ≠ .STARVATION then
              match env.spendOutcome with
              | .error e =>
                  let r := failCycle cycleNumber st2 phases2 env e
                  (r.1, { a with state := r.2, ledger := earned.1 })
              | .ok spendRes =>
                  let phases3 := { phases2 with spend := some spendRes }
                  let spent :=
                    applySpendProtections env spendRes.protections (earned.1, st2.totalSpent)
                  let st3 := { st2 with totalSpent := spent.2 }
                  finishCycle a env cycleNumber st3 spent.1 phases3
            else
              finishCycle a env cycleNumber st2 earned.1 phases2

/-- Sequential invocations of `runCycle`, threading the controller. -/
def runCycles (a : AgentData) (envs : List CycleEnv) : List CycleResult × AgentData :=
  match envs with
  | [] => ([], a)
  | e :: rest =>
      let r := runCycle a e
      let rs := runCycles r.2 rest
      (r.1 :: rs.1, rs.2)

/-! ### Specification-side definitions and helper lemmas -/

/-- Sum of the amounts of the income entries of a list (the quantity the
specification calls the sum of all recorded income amounts). -/
def incomeSum : List LedgerEntry → Int
  | [] => 0
  | e :: t => (if e.direction = .income then e.amount else 0) + incomeSum t

/-- Sum of the amounts of the expense entries of a list. -/
def expenseSum : List LedgerEntry → Int
  | [] => 0
  | e :: t => (if e.direction = .expense then e.amount else 0) + expenseSum t

theorem incomeSum_append (l1 l2 : List LedgerEntry) :
    incomeSum (l1 ++ l2) = incomeSum l1 + incomeSum l2 := by
  induction l1 with
  | nil => simp [incomeSum]
  | cons e t ih => simp [incomeSum, ih, add_assoc]

theorem expenseSum_append (l1 l2 : List LedgerEntry) :
    expenseSum (l1 ++ l2) = expenseSum l1 + expenseSum l2 := by
  induction l1 with
  | nil => simp [expenseSum]
  | cons e t ih => simp [expenseSum, ih, add_assoc]

theorem incomeSum_nonneg (l : List LedgerEntry) (h : ∀ e ∈ l, 0 ≤ e.amount) :
    0 ≤ incomeSum l := by
  induction l with
  | nil => simp [incomeSum]
  | cons e t ih =>
      have he := h e (by simp)
      have ht := ih (fun x hx => h x (by simp [hx]))
      simp only [incomeSum]
      split <;> omega

theorem pnlFold_income (l : List LedgerEntry) (acc : PnLAcc) :
    (l.foldl pnlStep acc).totalIncome = acc.totalIncome + incomeSum l := by
  induction l generalizing acc with
  | nil => simp [incomeSum]
  | cons e t ih =>
      simp only [List.foldl_cons, ih, incomeSum]
      cases h : e.direction <;> simp [pnlStep, h, add_assoc]

theorem pnlFold_expense (l : List LedgerEntry) (acc : PnLAcc) :
    (l.foldl pnlStep acc).totalExpense = acc.totalExpense + expenseSum l := by
  induction l generalizing acc with
  | nil => simp [expenseSum]
  | cons e t ih =>
      simp only [List.foldl_cons, ih, expenseSum]
      cases h : e.direction <;> simp [pnlStep, h, add_assoc]

/-- The concrete two-entry ledger of the specification examples: an
income entry of 1e9 (bounty reward, carrying a transaction digest) and an
expense entry of 1e8 (gas), recorded on an initially empty ledger. -/
def exampleLedger : LedgerState :=
  ((Ledger.new.record "id-income" 1000
      { direction := .income
        source := .bounty_reward
        amount := 1000000000
        description := "Bounty reward"
        txDigest := some "0xincometx" }).2.record "id-expense" 2000
      { direction := .expense
        source := .gas_fee
        amount := 100000000
        description := "Gas" }).2

/-- A concrete serialization model for closed evaluations: the digest
function is the identity on the serialized string and the float renderer
is constant (the packages compared below have equal margins, so no
difference can originate in it). -/
def idSerialize : SerializeModel :=
  { hash := fun s => s, floatJson := fun _ => "0" }

/-! ### C5 — profit and loss -/

/-- C5: for every ledger state and window, `generatePnL` returns the exact
income and expense sums over the windowed entries, their difference as the
net profit, and a profit margin equal to net over income (0 when income
is 0, the amounts being non-negative); on the concrete two-entry example
ledger it reports 1000000000 / 100000000 / 900000000 / 0.9. -/
theorem c5_generatePnL_correct (l : LedgerState) (fromT toT : Option Nat) (now : Nat)
    (hpos : ∀ e ∈ l.entries, 0 ≤ e.amount) :
    ((l.generatePnL fromT toT now).totalIncome =
        incomeSum (l.getEntries (some { fromT := fromT, toT := toT })) ∧
     (l.generatePnL fromT toT now).totalExpense =
        expenseSum (l.getEntries (some { fromT := fromT, toT := toT })) ∧
     (l.generatePnL fromT toT now).netProfit =
        (l.generatePnL fromT toT now).totalIncome -
          (l.generatePnL fromT toT now).totalExpense ∧
     ((l.generatePnL fromT toT now).totalIncome = 0 →
        (l.generatePnL fromT toT now).profitMargin = 0) ∧
     ((l.generatePnL fromT toT now).totalIncome ≠ 0 →
        (l.generatePnL fromT toT now).profitMargin =
          ((l.generatePnL fromT toT now).netProfit : ℚ) /
            ((l.generatePnL fromT toT now).totalIncome : ℚ))) ∧
    ((exampleLedger.generatePnL none none 0).totalIncome = 1000000000 ∧
     (exampleLedger.generatePnL none none 0).totalExpense = 100000000 ∧
     (exampleLedger.generatePnL none none 0).netProfit = 900000000 ∧
     (exampleLedger.generatePnL none none 0).profitMargin = 9 / 10) := by
  have hinc : (l.generatePnL fromT toT now).totalIncome =
      incomeSum (l.getEntries (some { fromT := fromT, toT := toT })) := by
    simp [LedgerState.generatePnL, pnlFold_income]
  have hexp : (l.generatePnL fromT toT now).totalExpense =
      expenseSum (l.getEntries (some { fromT := fromT, toT := toT })) := by
    simp [LedgerState.generatePnL, pnlFold_expense]
  have hincpos : 0 ≤ (l.generatePnL fromT toT now).totalIncome := by
    rw [hinc]
    refine incomeSum_nonneg _ (fun e he => hpos e ?_)
    simp only [LedgerState.getEntries, List.mem_filter] at he
    exact he.1
  refine ⟨⟨hinc, hexp, ?_, ?_, ?_⟩, ?_⟩
  · simp [LedgerState.generatePnL]
  · intro h0
    simp only [LedgerState.generatePnL] at h0 ⊢
    rw [h0]
    norm_num
  · intro hne
    have hlt : 0 < (l.generatePnL fromT toT now).totalIncome :=
      lt_of_le_of_ne hincpos (Ne.symm hne)
    simp only [LedgerState.generatePnL] at hlt ⊢
    rw [if_pos hlt]
  · refine ⟨by decide, by decide, by decide, ?_⟩
    show (exampleLedger.generatePnL none none 0).profitMargin = 9 / 10
    simp only [LedgerState.generatePnL, exampleLedger, Ledger.new, LedgerState.record,
      LedgerState.getEntries, entryMatches, List.filter, List.foldl, pnlStep, mapSet, mapGetD]
    norm_num

/-- C5 witness: the hypotheses and conclusions of the previous theorem at
the concrete example ledger. -/
theorem c5_generatePnL_correct_witness :
    (∀ e ∈ exampleLedger.entries, 0 ≤ e.amount) ∧
    (exampleLedger.generatePnL none none 0).totalIncome =
      incomeSum (exampleLedger.getEntries (some { fromT := none, toT := none })) ∧
    (exampleLedger.generatePnL none none 0).profitMargin = 9 / 10 :=
  ⟨by decide,
   (c5_generatePnL_correct exampleLedger none none 0 (by decide)).1.1,
   (c5_generatePnL_correct exampleLedger none none 0 (by decide)).2.2.2.2⟩

/-! ### C7 — audit package extraction -/

/-- C7: the audit package has one on-chain transaction summary per entry
carrying a (truthy) transaction digest, one encrypted-storage summary per
entry carrying a blob identifier, and one work-proof summary per entry
carrying both a work-proof hash and a bounty identifier; on the concrete
two-entry ledger where only the income entry carries a transaction digest
and no entry carries blob or proof fields, that is exactly one on-chain
element and zero storage and work-proof elements. -/
theorem c7_auditPackage_shape (sm : SerializeModel) (now : Nat)
    (l : LedgerState) (addr : String) :
    ((l.generateAuditPackage sm now addr).onChainTransactions.length =
        l.entries.countP (fun e => truthyStr e.txDigest) ∧
     (l.generateAuditPackage sm now addr).encryptedStorage.length =
        l.entries.countP (fun e => truthyStr e.blobId) ∧
     (l.generateAuditPackage sm now addr).workProofs.length =
        l.entries.countP (fun e => truthyStr e.taskHash && e.bountyId.isSome)) ∧
    ((exampleLedger.generateAuditPackage idSerialize 0 "0xagent").onChainTransactions.length = 1 ∧
     (exampleLedger.generateAuditPackage idSerialize 0 "0xagent").encryptedStorage = [] ∧
     (exampleLedger.generateAuditPackage idSerialize 0 "0xagent").workProofs = []) := by
  refine ⟨⟨?_, ?_, ?_⟩, by decide, by decide, by decide⟩ <;>
    simp [LedgerState.generateAuditPackage, LedgerState.getEntries,
      List.countP_eq_length_filter]

/-! ### C1 — audit checksum -/

/-- C1 counterexample: with the digest function taken as the identity on
the hashed string, generating the audit package of the same untouched
(empty) ledger at two different clock readings (0 ms and 1 ms) yields two
different checksums, because the fresh `generatedAt` value is part of the
hashed data.  The claim that two such calls always return the identical
checksum is therefore false. -/
theorem c1_checksum_counterexample :
    ¬ ((Ledger.new.generateAuditPackage idSerialize 0 "0xagent").checksum =
        (Ledger.new.generateAuditPackage idSerialize 1 "0xagent").checksum) := by
  decide

/-- C1 amended: the checksum is the digest of the serialization of every
field of the package except the checksum itself (the serializer never
reads the checksum field), and two calls on an unmodified ledger yield the
identical checksum provided they observe the same clock reading — the
hashed data includes the fresh `generatedAt` timestamp, so equality of the
observed times is exactly what the source guarantees determinism under. -/
theorem c1_checksum_contract (sm : SerializeModel) (t1 t2 : Nat)
    (l : LedgerState) (addr : String) :
    ((l.generateAuditPackage sm t1 addr).checksum =
       sm.hash (serializeAuditFields sm (l.generateAuditPackage sm t1 addr))) ∧
    (t1 = t2 →
       (l.generateAuditPackage sm t1 addr).checksum =
         (l.generateAuditPackage sm t2 addr).checksum) := by
  constructor
  · rfl
  · rintro rfl
    rfl

/-- C1 witness: the amended contract evaluated on the empty ledger with
the identity digest at time 0. -/
theorem c1_checksum_contract_witness :
    (0 : Nat) = 0 ∧
    (Ledger.new.generateAuditPackage idSerialize 0 "0xagent").checksum =
      (Ledger.new.generateAuditPackage idSerialize 0 "0xagent").checksum :=
  ⟨rfl, (c1_checksum_contract idSerialize 0 0 Ledger.new "0xagent").2 rfl⟩

/-! ### Branch lemmas for runCycle -/

theorem healthCheck_ok (a : AgentData) (env : CycleEnv) (b : Int)
    (hb : env.balanceOutcome = .ok b) :
    healthCheck a env = .ok
      { balance := b
        sufficientBalance := decide (a.starvationThreshold < b)
        bountyBoardReachable := env.bountyBoardReachable
        openclawGatewayReachable := env.openclawGatewayReachable
        recommendedMode :=
          if a.state.consecutiveFailures ≥ 3 then .ERROR
          else if !(decide (a.starvationThreshold < b)) then .STARVATION
          else .NORMAL } := by
  simp [healthCheck, hb]

theorem runCycle_balance_error (a : AgentData) (env : CycleEnv) (e : String)
    (hb : env.balanceOutcome = .error e) :
    runCycle a env =
      ({ cycleNumber := a.state.cycleCount + 1
         mode := a.state.mode
         phases := initPhases a env
         duration := env.endTime - env.now
         success := false
         error := some e },
       { a with state := { a.state with
           cycleCount := a.state.cycleCount + 1
           consecutiveFailures := a.state.consecutiveFailures + 1 } }) := by
  have hh : healthCheck a env = .error e := by simp [healthCheck, hb]
  unfold runCycle
  rw [hh]
  simp [failCycle]

theorem runCycle_unreachable (a : AgentData) (env : CycleEnv) (hc : HealthCheckResult)
    (hh : healthCheck a env = .ok hc) (hr : hc.bountyBoardReachable = false) :
    runCycle a env =
      ({ cycleNumber := a.state.cycleCount + 1
         mode := hc.recommendedMode
         phases := { initPhases a env with healthCheck := hc }
         duration := env.endTime - env.now
         success := false
         error := some "BountyBoard contract unreachable" },
       { a with state := { a.state with
           cycleCount := a.state.cycleCount + 1
           mode := hc.recommendedMode
           consecutiveFailures := a.state.consecutiveFailures + 1 } }) := by
  unfold runCycle
  rw [hh]
  simp [hr, failCycle]

theorem runCycle_earn_error (a : AgentData) (env : CycleEnv) (hc : HealthCheckResult)
    (e : String) (hh : healthCheck a env = .ok hc)
    (hr : hc.bountyBoardReachable = true) (he : env.earnOutcome = .error e) :
    runCycle a env =
      ({ cycleNumber := a.state.cycleCount + 1
         mode := hc.recommendedMode
         phases := { initPhases a env with healthCheck := hc }
         duration := env.endTime - env.now
         success := false
         error := some e },
       { a with state := { a.state with
           cycleCount := a.state.cycleCount + 1
           mode := hc.recommendedMode
           consecutiveFailures := a.state.consecutiveFailures + 1 } }) := by
  unfold runCycle
  rw [hh]
  simp [hr, he, failCycle]

theorem runCycle_starving (a : AgentData) (env : CycleEnv) (hc : HealthCheckResult)
    (er : EarnResult) (hh : healthCheck a env = .ok hc)
    (hr : hc.bountyBoardReachable = true) (he : env.earnOutcome = .ok er)
    (hm : hc.recommendedMode = .STARVATION) :
    runCycle a env =
      finishCycle a env (a.state.cycleCount + 1)
        { a.state with
            cycleCount := a.state.cycleCount + 1
            mode := hc.recommendedMode
            totalEarned := (applyEarnClaims env er.claims (a.ledger, a.state.totalEarned)).2 }
        (applyEarnClaims env er.claims (a.ledger, a.state.totalEarned)).1
        { initPhases a env with healthCheck := hc, earn := some er } := by
  unfold runCycle
  rw [hh]
  simp [hr, he, hm]

theorem runCycle_spend_error (a : AgentData) (env : CycleEnv) (hc : HealthCheckResult)
    (er : EarnResult) (e : String) (hh : healthCheck a env = .ok hc)
    (hr : hc.bountyBoardReachable = true) (he : env.earnOutcome = .ok er)
    (hm : hc.recommendedMode ≠ .STARVATION) (hs : env.spendOutcome = .error e) :
    runCycle a env =
      ({ cycleNumber := a.state.cycleCount + 1
         mode := hc.recommendedMode
         phases := { initPhases a env with healthCheck := hc, earn := some er }
         duration := env.endTime - env.now
         success := false
         error := some e },
       { a with
           state := { a.state with
             cycleCount := a.state.cycleCount + 1
             mode := hc.recommendedMode
             totalEarned := (applyEarnClaims env er.claims (a.ledger, a.state.totalEarned)).2
             consecutiveFailures := a.state.consecutiveFailures + 1 }
           ledger := (applyEarnClaims env er.claims (a.ledger, a.state.totalEarned)).1 }) := by
  unfold runCycle
  rw [hh]
  simp [hr, he, hm, hs, failCycle]

theorem runCycle_spending (a : AgentData) (env : CycleEnv) (hc : HealthCheckResult)
    (er : EarnResult) (sr : SpendResult) (hh : healthCheck a env = .ok hc)
    (hr : hc.bountyBoardReachable = true) (he : env.earnOutcome = .ok er)
    (hm : hc.recommendedMode ≠ .STARVATION) (hs : env.spendOutcome = .ok sr) :
    runCycle a env =
      finishCycle a env (a.state.cycleCount + 1)
        { a.state with
            cycleCount := a.state.cycleCount + 1
            mode := hc.recommendedMode
            totalEarned := (applyEarnClaims env er.claims (a.ledger, a.state.totalEarned)).2
            totalSpent :=
              (applySpendProtections env sr.protections
                ((applyEarnClaims env er.claims (a.ledger, a.state.totalEarned)).1,
                 a.state.totalSpent)).2 }
        (applySpendProtections env sr.protections
          ((applyEarnClaims env er.claims (a.ledger, a.state.totalEarned)).1,
           a.state.totalSpent)).1
        { initPhases a env with healthCheck := hc, earn := some er, spend := some sr } := by
  unfold runCycle
  rw [hh]
  simp [hr, he, hm, hs]

theorem runCycle_counter (a : AgentData) (env : CycleEnv) :
    (runCycle a env).1.cycleNumber = a.state.cycleCount + 1 ∧
    (runCycle a env).2.state.cycleCount = a.state.cycleCount + 1 := by
  cases hb : env.balanceOutcome with
  | error e =>
      rw [runCycle_balance_error a env e hb]
      exact ⟨rfl, rfl⟩
  | ok b =>
      obtain ⟨hc, hh, hcr⟩ :
          ∃ hc, healthCheck a env = .ok hc ∧
            hc.bountyBoardReachable = env.bountyBoardReachable :=
        ⟨_, healthCheck_ok a env b hb, rfl⟩
      cases hr : env.bountyBoardReachable with
      | false =>
          rw [runCycle_unreachable a env hc hh (hcr.trans hr)]
          exact ⟨rfl, rfl⟩
      | true =>
          cases he : env.earnOutcome with
          | error e =>
              rw [runCycle_earn_error a env hc e hh (hcr.trans hr) he]
              exact ⟨rfl, rfl⟩
          | ok er =>
              by_cases hm : hc.recommendedMode = .STARVATION
              · rw [runCycle_starving a env hc er hh (hcr.trans hr) he hm]
                exact ⟨rfl, rfl⟩
              · cases hs : env.spendOutcome with
                | error e =>
                    rw [runCycle_spend_error a env hc er e hh (hcr.trans hr) he hm hs]
                    exact ⟨rfl, rfl⟩
                | ok sr =>
                    rw [runCycle_spending a env hc er sr hh (hcr.trans hr) he hm hs]
                    exact ⟨rfl, rfl⟩

/-! ### Accounting lemmas -/

/-- Sum of the rewards of the successful claims of a list. -/
def rewardSumSucc : List ClaimResult → Int
  | [] => 0
  | c :: rest => (if c.success then c.rewardAmount else 0) + rewardSumSucc rest

/-- Sum of the gas of the successful protections of a list. -/
def gasSumSucc : List ProtectionResult → Int
  | [] => 0
  | p :: rest => (if p.success then p.gasSpent else 0) + gasSumSucc rest

theorem recordEarning_sums (l : LedgerState) (id : String) (ts : Nat) (c : ClaimResult) :
    incomeSum (l.recordEarning id ts c).2.entries = incomeSum l.entries + c.rewardAmount ∧
    expenseSum (l.recordEarning id ts c).2.entries = expenseSum l.entries := by
  simp [LedgerState.recordEarning, LedgerState.record, incomeSum_append,
    expenseSum_append, incomeSum, expenseSum]

theorem recordSpending_sums (l : LedgerState) (id : String) (ts : Nat)
    (p : ProtectionResult) :
    expenseSum (l.recordSpending id ts p).2.entries = expenseSum l.entries + p.gasSpent ∧
    incomeSum (l.recordSpending id ts p).2.entries = incomeSum l.entries := by
  simp [LedgerState.recordSpending, LedgerState.record, incomeSum_append,
    expenseSum_append, incomeSum, expenseSum]

theorem applyEarnClaims_sums (env : CycleEnv) (claims : List ClaimResult)
    (l : LedgerState) (t : Int) :
    (applyEarnClaims env claims (l, t)).2 = t + rewardSumSucc claims ∧
    incomeSum (applyEarnClaims env claims (l, t)).1.entries =
      incomeSum l.entries + rewardSumSucc claims ∧
    expenseSum (applyEarnClaims env claims (l, t)).1.entries = expenseSum l.entries := by
  induction claims generalizing l t with
  | nil =>
      exact ⟨by simp [applyEarnClaims, rewardSumSucc],
        by simp [applyEarnClaims, rewardSumSucc], rfl⟩
  | cons c rest ih =>
      by_cases hcs : c.success
      · have hstep : applyEarnClaims env (c :: rest) (l, t) =
            applyEarnClaims env rest
              ((l.recordEarning (env.uuids l.entries.length) env.now c).2,
               t + c.rewardAmount) := by
          simp [applyEarnClaims, hcs]
        obtain ⟨ih1, ih2, ih3⟩ :=
          ih (l.recordEarning (env.uuids l.entries.length) env.now c).2 (t + c.rewardAmount)
        obtain ⟨h1, h2⟩ := recordEarning_sums l (env.uuids l.entries.length) env.now c
        rw [hstep]
        refine ⟨?_, ?_, ?_⟩
        · rw [ih1]; simp [rewardSumSucc, hcs, add_assoc]
        · rw [ih2, h1]; simp [rewardSumSucc, hcs, add_assoc]
        · rw [ih3, h2]
      · have hstep : applyEarnClaims env (c :: rest) (l, t) =
            applyEarnClaims env rest (l, t) := by
          simp [applyEarnClaims, hcs]
        obtain ⟨ih1, ih2, ih3⟩ := ih l t
        rw [hstep]
        refine ⟨?_, ?_, ?_⟩
        · rw [ih1]; simp [rewardSumSucc, hcs]
        · rw [ih2]; simp [rewardSumSucc, hcs]
        · exact ih3

theorem applySpendProtections_sums (env : CycleEnv) (prots : List ProtectionResult)
    (l : LedgerState) (t : Int) :
    (applySpendProtections env prots (l, t)).2 = t + gasSumSucc prots ∧
    expenseSum (applySpendProtections env prots (l, t)).1.entries =
      expenseSum l.entries + gasSumSucc prots ∧
    incomeSum (applySpendProtections env prots (l, t)).1.entries = incomeSum l.entries := by
  induction prots generalizing l t with
  | nil =>
      exact ⟨by simp [applySpendProtections, gasSumSucc],
        by simp [applySpendProtections, gasSumSucc], rfl⟩
  | cons p rest ih =>
      by_cases hp : p.success
      · have hstep : applySpendProtections env (p :: rest) (l, t) =
            applySpendProtections env rest
              ((l.recordSpending (env.uuids l.entries.length) env.now p).2,
               t + p.gasSpent) := by
          simp [applySpendProtections, hp]
        obtain ⟨ih1, ih2, ih3⟩ :=
          ih (l.recordSpending (env.uuids l.entries.length) env.now p).2 (t + p.gasSpent)
        obtain ⟨h1, h2⟩ := recordSpending_sums l (env.uuids l.entries.length) env.now p
        rw [hstep]
        refine ⟨?_, ?_, ?_⟩
        · rw [ih1]; simp [gasSumSucc, hp, add_assoc]
        · rw [ih2, h1]; simp [gasSumSucc, hp, add_assoc]
        · rw [ih3, h2]
      · have hstep : applySpendProtections env (p :: rest) (l, t) =
            applySpendProtections env rest (l, t) := by
          simp [applySpendProtections, hp]
        obtain ⟨ih1, ih2, ih3⟩ := ih l t
        rw [hstep]
        refine ⟨?_, ?_, ?_⟩
        · rw [ih1]; simp [gasSumSucc, hp]
        · rw [ih2]; simp [gasSumSucc, hp]
        · exact ih3

theorem applySpendProtections_income_entries (env : CycleEnv)
    (prots : List ProtectionResult) (l : LedgerState) (t : Int) :
    ((applySpendProtections env prots (l, t)).1.entries.filter
        (fun e => e.direction == TransactionDirection.income)) =
      l.entries.filter (fun e => e.direction == TransactionDirection.income) := by
  induction prots generalizing l t with
  | nil => rfl
  | cons p rest ih =>
      by_cases hp : p.success
      · have hstep : applySpendProtections env (p :: rest) (l, t) =
            applySpendProtections env rest
              ((l.recordSpending (env.uuids l.entries.length) env.now p).2,
               t + p.gasSpent) := by
          simp [applySpendProtections, hp]
        rw [hstep, ih]
        simp [LedgerState.recordSpending, LedgerState.record, List.filter_append]
      · have hstep : applySpendProtections env (p :: rest) (l, t) =
            applySpendProtections env rest (l, t) := by
          simp [applySpendProtections, hp]
        rw [hstep]
        exact ih l t

theorem applyEarnClaims_expense_count (env : CycleEnv) (claims : List ClaimResult)
    (l : LedgerState) (t : Int) :
    ((applyEarnClaims env claims (l, t)).1.entries.countP
        (fun e => e.direction == TransactionDirection.expense)) =
      l.entries.countP (fun e => e.direction == TransactionDirection.expense) := by
  induction claims generalizing l t with
  | nil => rfl
  | cons c rest ih =>
      by_cases hcs : c.success
      · have hstep : applyEarnClaims env (c :: rest) (l, t) =
            applyEarnClaims env rest
              ((l.recordEarning (env.uuids l.entries.length) env.now c).2,
               t + c.rewardAmount) := by
          simp [applyEarnClaims, hcs]
        rw [hstep, ih]
        simp [LedgerState.recordEarning, LedgerState.record, List.countP_append,
          List.countP_cons]
      · have hstep : applyEarnClaims env (c :: rest) (l, t) =
            applyEarnClaims env rest (l, t) := by
          simp [applyEarnClaims, hcs]
        rw [hstep]
        exact ih l t

theorem applySpendProtections_expense_count (env : CycleEnv)
    (prots : List ProtectionResult) (l : LedgerState) (t : Int) :
    ((applySpendProtections env prots (l, t)).1.entries.countP
        (fun e => e.direction == TransactionDirection.expense)) =
      l.entries.countP (fun e => e.direction == TransactionDirection.expense) +
        prots.countP (fun p => p.success) := by
  induction prots generalizing l t with
  | nil => simp [applySpendProtections]
  | cons p rest ih =>
      by_cases hp : p.success
      · have hstep : applySpendProtections env (p :: rest) (l, t) =
            applySpendProtections env rest
              ((l.recordSpending (env.uuids l.entries.length) env.now p).2,
               t + p.gasSpent) := by
          simp [applySpendProtections, hp]
        rw [hstep, ih]
        simp [LedgerState.recordSpending, LedgerState.record, List.countP_append,
          List.countP_cons, hp]
        omega
      · have hstep : applySpendProtections env (p :: rest) (l, t) =
            applySpendProtections env rest (l, t) := by
          simp [applySpendProtections, hp]
        rw [hstep, ih]
        simp [List.countP_cons, hp]

/-- Success or failure shape of one cycle: a successful cycle resets the
consecutive-failure counter and reports no error; a failed cycle
increments it and reports a message. -/
theorem runCycle_shape (a : AgentData) (env : CycleEnv) :
    ((runCycle a env).1.success = true ∧
     (runCycle a env).2.state.consecutiveFailures = 0 ∧
     (runCycle a env).1.error = none) ∨
    ((runCycle a env).1.success = false ∧
     (runCycle a env).2.state.consecutiveFailures = a.state.consecutiveFailures + 1 ∧
     ∃ msg, (runCycle a env).1.error = some msg) := by
  cases hb : env.balanceOutcome with
  | error e =>
      rw [runCycle_balance_error a env e hb]
      exact Or.inr ⟨rfl, rfl, e, rfl⟩
  | ok b =>
      obtain ⟨hc, hh, hcr⟩ :
          ∃ hc, healthCheck a env = .ok hc ∧
            hc.bountyBoardReachable = env.bountyBoardReachable :=
        ⟨_, healthCheck_ok a env b hb, rfl⟩
      cases hr : env.bountyBoardReachable with
      | false =>
          rw [runCycle_unreachable a env hc hh (hcr.trans hr)]
          exact Or.inr ⟨rfl, rfl, _, rfl⟩
      | true =>
          cases he : env.earnOutcome with
          | error e =>
              rw [runCycle_earn_error a env hc e hh (hcr.trans hr) he]
              exact Or.inr ⟨rfl, rfl, e, rfl⟩
          | ok er =>
              by_cases hm : hc.recommendedMode = .STARVATION
              · rw [runCycle_starving a env hc er hh (hcr.trans hr) he hm]
                exact Or.inl ⟨rfl, rfl, rfl⟩
              · cases hs : env.spendOutcome with
                | error e =>
                    rw [runCycle_spend_error a env hc er e hh (hcr.trans hr) he hm hs]
                    exact Or.inr ⟨rfl, rfl, e, rfl⟩
                | ok sr =>
                    rw [runCycle_spending a env hc er sr hh (hcr.trans hr) he hm hs]
                    exact Or.inl ⟨rfl, rfl, rfl⟩

/-! ### Concrete inputs for closed evaluations -/

/-- A successful demo claim worth 1 SUI of MIST. -/
def demoClaim : ClaimResult :=
  { bountyId := 1
    rewardAmount := 1000000000
    txDigest := "0xtx1"
    explorerUrl := "https://suiscan.xyz/testnet/tx/0xtx1"
    proofHash := "0xproof"
    success := true }

/-- An unsuccessful demo claim (no transaction digest). -/
def demoFailedClaim : ClaimResult := { demoClaim with success := false, txDigest := "" }

/-- An earn result with one successful claim. -/
def demoEarn : EarnResult :=
  { tasksFound := 1, tasksCompleted := 1, totalEarned := 1000000000,
    claims := [demoClaim], timestamp := 3 }

/-- An earn result with one unsuccessful claim. -/
def demoFailEarn : EarnResult :=
  { tasksFound := 1, tasksCompleted := 0, totalEarned := 0,
    claims := [demoFailedClaim], timestamp := 3 }

/-- A successful demo protection costing 0.1 SUI of MIST gas. -/
def demoProtection : ProtectionResult :=
  { label := "api-keys"
    encryption := { sealPolicyId := "0xpolicy" }
    upload := { blobId := "blob1", txDigest := "0xtx2",
                explorerUrl := "https://suiscan.xyz/testnet/tx/0xtx2" }
    gasSpent := 100000000
    success := true }

/-- A spend result with one successful protection. -/
def demoSpend : SpendResult :=
  { itemsProtected := 1, totalGasSpent := 100000000,
    protections := [demoProtection], timestamp := 4 }

/-- A healthy cycle environment: balance 0.02 SUI above the threshold,
both collaborators reachable, one earn claim and one protection. -/
def demoEnv : CycleEnv :=
  { now := 0
    endTime := 5
    balanceOutcome := .ok 20000000
    bountyBoardReachable := true
    openclawGatewayReachable := true
    earnOutcome := .ok demoEarn
    spendOutcome := .ok demoSpend
    verifiedOf := fun _ => true
    screenshotUrl := none
    uuids := fun n => "uuid-" ++ toString n
    serialize := idSerialize }

/-- A fresh controller with the default 10,000,000 MIST threshold. -/
def demoAgent : AgentData := mkAgent 10000000 5 "testnet" "0xagentaddr"

/-- The environment with the bounty board unreachable. -/
def envUnreachable : CycleEnv := { demoEnv with bountyBoardReachable := false }

/-- The environment with a throwing balance query. -/
def envBalanceThrow : CycleEnv := { demoEnv with balanceOutcome := .error "wallet offline" }

/-- The environment with a throwing earn phase. -/
def envEarnThrow : CycleEnv := { demoEnv with earnOutcome := .error "earn failed" }

/-- The environment with a balance at half the starvation threshold. -/
def demoEnvStarve : CycleEnv := { demoEnv with balanceOutcome := .ok 5000000 }

/-- The environment with one unsuccessful earn claim. -/
def demoEnvC8 : CycleEnv := { demoEnv with earnOutcome := .ok demoFailEarn }

/-- The fresh controller after three consecutive failures. -/
def demoAgentErr : AgentData :=
  { demoAgent with state := { initialAgentState with consecutiveFailures := 3 } }

/-- The health result of `demoAgent` in `demoEnv`. -/
def demoHC : HealthCheckResult :=
  { balance := 20000000, sufficientBalance := true, bountyBoardReachable := true,
    openclawGatewayReachable := true, recommendedMode := .NORMAL }

/-- The health result of `demoAgent` in `demoEnvStarve`. -/
def demoHCStarve : HealthCheckResult :=
  { balance := 5000000, sufficientBalance := false, bountyBoardReachable := true,
    openclawGatewayReachable := true, recommendedMode := .STARVATION }

/-- The health result of `demoAgentErr` in `demoEnv`. -/
def demoHCErr : HealthCheckResult :=
  { balance := 20000000, sufficientBalance := true, bountyBoardReachable := true,
    openclawGatewayReachable := true, recommendedMode := .ERROR }

/-! ### C2 — abort on unreachable earning source; exceptions never escape -/

/-- C2: when the bounty board is unreachable (and the balance query
succeeded), the cycle aborts as a failure without running earn, spend,
audit or verify, the failure counter is incremented and the ledger is
untouched; and every exception injected by a collaborator (balance query,
earn, spend) is caught and converted into an unsuccessful result carrying
the exception message — a failed cycle always carries an error message,
never an escaped exception. -/
theorem c2_failure_containment (a : AgentData) (env : CycleEnv) :
    (∀ b, env.balanceOutcome = .ok b → env.bountyBoardReachable = false →
       (runCycle a env).1.success = false ∧
       (runCycle a env).1.error = some "BountyBoard contract unreachable" ∧
       (runCycle a env).1.phases.earn = none ∧
       (runCycle a env).1.phases.spend = none ∧
       (runCycle a env).1.phases.audit = none ∧
       (runCycle a env).1.phases.verify = none ∧
       (runCycle a env).2.state.consecutiveFailures = a.state.consecutiveFailures + 1 ∧
       (runCycle a env).2.ledger = a.ledger) ∧
    ((runCycle a env).1.success = false → ∃ msg, (runCycle a env).1.error = some msg) ∧
    (∀ e, env.balanceOutcome = .error e →
       (runCycle a env).1.success = false ∧ (runCycle a env).1.error = some e ∧
       (runCycle a env).2.state.consecutiveFailures = a.state.consecutiveFailures + 1) ∧
    (∀ e b, env.balanceOutcome = .ok b → env.bountyBoardReachable = true →
       env.earnOutcome = .error e →
       (runCycle a env).1.success = false ∧ (runCycle a env).1.error = some e ∧
       (runCycle a env).2.state.consecutiveFailures = a.state.consecutiveFailures + 1) ∧
    (∀ e hc er, healthCheck a env = .ok hc → hc.bountyBoardReachable = true →
       env.earnOutcome = .ok er → hc.recommendedMode ≠ .STARVATION →
       env.spendOutcome = .error e →
       (runCycle a env).1.success = false ∧ (runCycle a env).1.error = some e ∧
       (runCycle a env).2.state.consecutiveFailures = a.state.consecutiveFailures + 1) := by
  refine ⟨?_, ?_, ?_, ?_, ?_⟩
  · intro b hb hr
    obtain ⟨hc, hh, hcr⟩ :
        ∃ hc, healthCheck a env = .ok hc ∧
          hc.bountyBoardReachable = env.bountyBoardReachable :=
      ⟨_, healthCheck_ok a env b hb, rfl⟩
    rw [runCycle_unreachable a env hc hh (hcr.trans hr)]
    exact ⟨rfl, rfl, rfl, rfl, rfl, rfl, rfl, rfl⟩
  · rcases runCycle_shape a env with ⟨hs, _, _⟩ | ⟨_, _, msg, hmsg⟩
    · intro hf
      exact absurd (hs.symm.trans hf) (by decide)
    · exact fun _ => ⟨msg, hmsg⟩
  · intro e hb
    rw [runCycle_balance_error a env e hb]
    exact ⟨rfl, rfl, rfl⟩
  · intro e b hb hr he
    obtain ⟨hc, hh, hcr⟩ :
        ∃ hc, healthCheck a env = .ok hc ∧
          hc.bountyBoardReachable = env.bountyBoardReachable :=
      ⟨_, healthCheck_ok a env b hb, rfl⟩
    rw [runCycle_earn_error a env hc e hh (hcr.trans hr) he]
    exact ⟨rfl, rfl, rfl⟩
  · intro e hc er hh hr he hm hs
    rw [runCycle_spend_error a env hc er e hh hr he hm hs]
    exact ⟨rfl, rfl, rfl⟩

/-- C2 witness: the abort conjunct at the unreachable-board environment,
and the conversion conjuncts at the throwing-balance and throwing-earn
environments. -/
theorem c2_failure_containment_witness :
    ((runCycle demoAgent envUnreachable).1.success = false ∧
     (runCycle demoAgent envUnreachable).1.error =
       some "BountyBoard contract unreachable" ∧
     (runCycle demoAgent envUnreachable).1.phases.earn = none ∧
     (runCycle demoAgent envUnreachable).1.phases.spend = none ∧
     (runCycle demoAgent envUnreachable).1.phases.audit = none ∧
     (runCycle demoAgent envUnreachable).1.phases.verify = none ∧
     (runCycle demoAgent envUnreachable).2.state.consecutiveFailures =
       demoAgent.state.consecutiveFailures + 1 ∧
     (runCycle demoAgent envUnreachable).2.ledger = demoAgent.ledger) ∧
    ((runCycle demoAgent envBalanceThrow).1.success = false ∧
     (runCycle demoAgent envBalanceThrow).1.error = some "wallet offline" ∧
     (runCycle demoAgent envBalanceThrow).2.state.consecutiveFailures =
       demoAgent.state.consecutiveFailures + 1) ∧
    ((runCycle demoAgent envEarnThrow).1.success = false ∧
     (runCycle demoAgent envEarnThrow).1.error = some "earn failed" ∧
     (runCycle demoAgent envEarnThrow).2.state.consecutiveFailures =
       demoAgent.state.consecutiveFailures + 1) :=
  ⟨(c2_failure_containment demoAgent envUnreachable).1 20000000 rfl rfl,
   (c2_failure_containment demoAgent envBalanceThrow).2.2.1 "wallet offline" rfl,
   (c2_failure_containment demoAgent envEarnThrow).2.2.2.1 "earn failed" 20000000
     rfl rfl rfl⟩

/-! ### C3 — starvation gates spending -/

/-- The cycle environment with the outcome of the spending collaborator
replaced and everything else unchanged. -/
def setSpendOutcome (env : CycleEnv) (alt : Except String SpendResult) : CycleEnv :=
  { env with spendOutcome := alt }

/-- The earn loop reads only the clock and the uuid stream of the
environment, so replacing the spending outcome leaves it unchanged. -/
theorem applyEarnClaims_setSpend (env : CycleEnv) (alt : Except String SpendResult)
    (claims : List ClaimResult) (acc : LedgerState × Int) :
    applyEarnClaims (setSpendOutcome env alt) claims acc =
      applyEarnClaims env claims acc := by
  induction claims generalizing acc with
  | nil => rfl
  | cons c rest ih =>
      simp only [applyEarnClaims]
      rw [ih]
      rfl

/-- C3: when the adopted mode of the cycle is Starvation (the mode the
health check recommends is adopted for the remainder of the cycle), the
spend phase of the result is absent and the whole cycle outcome is
independent of whatever the spending collaborator would have returned. -/
theorem c3_starvation_gates_spend (a : AgentData) (env : CycleEnv)
    (hc : HealthCheckResult) (hh : healthCheck a env = .ok hc)
    (hm : hc.recommendedMode = .STARVATION) :
    (runCycle a env).1.phases.spend = none ∧
    ∀ alt, runCycle a (setSpendOutcome env alt) = runCycle a env := by
  cases hb : env.balanceOutcome with
  | error e =>
      have hhe : healthCheck a env = .error e := by simp [healthCheck, hb]
      exact Except.noConfusion (hhe.symm.trans hh)
  | ok b =>
      have hh2 := healthCheck_ok a env b hb
      rw [hh] at hh2
      injection hh2 with hhc
      cases hr : env.bountyBoardReachable with
      | false =>
          have hbr : hc.bountyBoardReachable = false := by rw [hhc]; exact hr
          refine ⟨?_, ?_⟩
          · rw [runCycle_unreachable a env hc hh hbr]
            rfl
          · intro alt
            rw [runCycle_unreachable a (setSpendOutcome env alt) hc hh hbr,
              runCycle_unreachable a env hc hh hbr]
            rfl
      | true =>
          have hbr : hc.bountyBoardReachable = true := by rw [hhc]; exact hr
          cases he : env.earnOutcome with
          | error e =>
              refine ⟨?_, ?_⟩
              · rw [runCycle_earn_error a env hc e hh hbr he]
                rfl
              · intro alt
                rw [runCycle_earn_error a (setSpendOutcome env alt) hc e hh hbr he,
                  runCycle_earn_error a env hc e hh hbr he]
                rfl
          | ok er =>
              refine ⟨?_, ?_⟩
              · rw [runCycle_starving a env hc er hh hbr he hm]
                rfl
              · intro alt
                rw [runCycle_starving a (setSpendOutcome env alt) hc er hh hbr he hm,
                  runCycle_starving a env hc er hh hbr he hm,
                  applyEarnClaims_setSpend]
                rfl

/-- C3 witness: the gating at the low-balance environment, also under a
spending collaborator that would have thrown. -/
theorem c3_starvation_gates_spend_witness :
    healthCheck demoAgent demoEnvStarve = .ok demoHCStarve ∧
    demoHCStarve.recommendedMode = .STARVATION ∧
    (runCycle demoAgent demoEnvStarve).1.phases.spend = none ∧
    runCycle demoAgent (setSpendOutcome demoEnvStarve (.error "would throw")) =
      runCycle demoAgent demoEnvStarve :=
  ⟨by rfl, rfl,
   (c3_starvation_gates_spend demoAgent demoEnvStarve demoHCStarve (by rfl) rfl).1,
   (c3_starvation_gates_spend demoAgent demoEnvStarve demoHCStarve (by rfl) rfl).2 _⟩

/-! ### C4 — mode recommendation and failure counter -/

/-- C4: the health check recommends Error when the consecutive-failure
counter is at least 3, otherwise Starvation when the balance is not
strictly above the starvation threshold, otherwise Normal; a successful
cycle resets the counter to 0 and a failed cycle increments it by one (so
three consecutive failures make the next health check recommend Error). -/
theorem c4_mode_policy (a : AgentData) (env : CycleEnv) :
    (∀ b hc, env.balanceOutcome = .ok b → healthCheck a env = .ok hc →
       hc.recommendedMode =
         (if 3 ≤ a.state.consecutiveFailures then AgentMode.ERROR
          else if b ≤ a.starvationThreshold then AgentMode.STARVATION
          else AgentMode.NORMAL)) ∧
    ((runCycle a env).1.success = true →
       (runCycle a env).2.state.consecutiveFailures = 0) ∧
    ((runCycle a env).1.success = false →
       (runCycle a env).2.state.consecutiveFailures =
         a.state.consecutiveFailures + 1) := by
  refine ⟨?_, ?_, ?_⟩
  · intro b hc hb hh
    have hh2 := healthCheck_ok a env b hb
    rw [hh] at hh2
    injection hh2 with hhc
    subst hhc
    by_cases h3 : 3 ≤ a.state.consecutiveFailures
    · simp [h3, ge_iff_le]
    · by_cases hbal : b ≤ a.starvationThreshold
      · have hnl : ¬ a.starvationThreshold < b := not_lt.mpr hbal
        simp [h3, hbal, hnl, ge_iff_le]
      · have hl : a.starvationThreshold < b := not_le.mp hbal
        simp [h3, hbal, hl, ge_iff_le]
  · rcases runCycle_shape a env with ⟨_, hcf, _⟩ | ⟨hs, _, _⟩
    · exact fun _ => hcf
    · intro h
      exact absurd (hs.symm.trans h) (by decide)
  · rcases runCycle_shape a env with ⟨hs, _, _⟩ | ⟨_, hcf, _⟩
    · intro h
      exact absurd (hs.symm.trans h) (by decide)
    · exact fun _ => hcf

/-- C4 witness: the recommendation at the healthy environment, the reset
after the successful demo cycle, and the increment after an aborted one. -/
theorem c4_mode_policy_witness :
    demoHC.recommendedMode =
      (if 3 ≤ demoAgent.state.consecutiveFailures then AgentMode.ERROR
       else if (20000000 : Int) ≤ demoAgent.starvationThreshold then AgentMode.STARVATION
       else AgentMode.NORMAL) ∧
    (runCycle demoAgent demoEnv).2.state.consecutiveFailures = 0 ∧
    (runCycle demoAgent envUnreachable).2.state.consecutiveFailures =
      demoAgent.state.consecutiveFailures + 1 :=
  ⟨(c4_mode_policy demoAgent demoEnv).1 20000000 demoHC rfl (by rfl),
   (c4_mode_policy demoAgent demoEnv).2.1 (by rfl),
   (c4_mode_policy demoAgent envUnreachable).2.2 (by rfl)⟩

/-! ### C6 — monotonic cycle numbers -/

theorem runCycles_numbers (a : AgentData) (envs : List CycleEnv) :
    ((runCycles a envs).1.map (fun r => r.cycleNumber)) =
      List.range' (a.state.cycleCount + 1) envs.length ∧
    (runCycles a envs).2.state.cycleCount = a.state.cycleCount + envs.length := by
  induction envs generalizing a with
  | nil => simp [runCycles]
  | cons e rest ih =>
      obtain ⟨hn, hcnt⟩ := runCycle_counter a e
      obtain ⟨ih1, ih2⟩ := ih (runCycle a e).2
      constructor
      · simp only [runCycles, List.map_cons, List.length_cons]
        rw [hn, ih1, hcnt]
        simp [List.range']
      · simp only [runCycles, List.length_cons]
        rw [ih2, hcnt]
        omega

/-- C6: starting from a fresh controller, N sequential invocations of
runCycle return the cycle numbers 1, 2, ..., N in order, whatever each
individual cycle does, and the counter advances by exactly one per
invocation. -/
theorem c6_cycle_numbers (thr : Int) (interval : Nat) (network addr : String)
    (envs : List CycleEnv) :
    ((runCycles (mkAgent thr interval network addr) envs).1.map
        (fun r => r.cycleNumber)) = List.range' 1 envs.length ∧
    (runCycles (mkAgent thr interval network addr) envs).2.state.cycleCount =
      envs.length :=
  ⟨(runCycles_numbers (mkAgent thr interval network addr) envs).1, by
    have h := (runCycles_numbers (mkAgent thr interval network addr) envs).2
    simpa [mkAgent, initialAgentState] using h⟩

/-! ### C8 — an unsuccessful claim neither fails the cycle nor reaches the ledger -/

/-- C8: when the earning collaborator returns exactly one claim with
success = false and every other phase completes, the cycle still succeeds,
the ledger gains no income entry, and the running earned total is
unchanged. -/
theorem c8_failed_claim_harmless (a : AgentData) (env : CycleEnv) (b : Int)
    (er : EarnResult) (c : ClaimResult) (sr : SpendResult)
    (hb : env.balanceOutcome = .ok b)
    (hr : env.bountyBoardReachable = true)
    (he : env.earnOutcome = .ok er)
    (hclaims : er.claims = [c])
    (hcs : c.success = false)
    (hs : env.spendOutcome = .ok sr) :
    (runCycle a env).1.success = true ∧
    ((runCycle a env).2.ledger.entries.filter
        (fun e => e.direction == TransactionDirection.income)) =
      a.ledger.entries.filter (fun e => e.direction == TransactionDirection.income) ∧
    (runCycle a env).2.state.totalEarned = a.state.totalEarned := by
  obtain ⟨hc, hh, hcr⟩ :
      ∃ hc, healthCheck a env = .ok hc ∧
        hc.bountyBoardReachable = env.bountyBoardReachable :=
    ⟨_, healthCheck_ok a env b hb, rfl⟩
  have hE : applyEarnClaims env er.claims (a.ledger, a.state.totalEarned) =
      (a.ledger, a.state.totalEarned) := by
    rw [hclaims]
    simp [applyEarnClaims, hcs]
  by_cases hm : hc.recommendedMode = .STARVATION
  · rw [runCycle_starving a env hc er hh (hcr.trans hr) he hm]
    refine ⟨rfl, ?_, ?_⟩
    · show ((applyEarnClaims env er.claims (a.ledger, a.state.totalEarned)).1.entries.filter
          (fun e => e.direction == TransactionDirection.income)) =
        a.ledger.entries.filter (fun e => e.direction == TransactionDirection.income)
      rw [hE]
    · show (applyEarnClaims env er.claims (a.ledger, a.state.totalEarned)).2 =
        a.state.totalEarned
      rw [hE]
  · rw [runCycle_spending a env hc er sr hh (hcr.trans hr) he hm hs]
    refine ⟨rfl, ?_, ?_⟩
    · show ((applySpendProtections env sr.protections
            ((applyEarnClaims env er.claims (a.ledger, a.state.totalEarned)).1,
             a.state.totalSpent)).1.entries.filter
          (fun e => e.direction == TransactionDirection.income)) =
        a.ledger.entries.filter (fun e => e.direction == TransactionDirection.income)
      rw [hE]
      exact applySpendProtections_income_entries env sr.protections a.ledger
        a.state.totalSpent
    · show (applyEarnClaims env er.claims (a.ledger, a.state.totalEarned)).2 =
        a.state.totalEarned
      rw [hE]

/-- C8 witness: the failed-claim environment on the fresh controller. -/
theorem c8_failed_claim_harmless_witness :
    demoFailedClaim.success = false ∧
    (runCycle demoAgent demoEnvC8).1.success = true ∧
    ((runCycle demoAgent demoEnvC8).2.ledger.entries.filter
        (fun e => e.direction == TransactionDirection.income)) =
      demoAgent.ledger.entries.filter
        (fun e => e.direction == TransactionDirection.income) ∧
    (runCycle demoAgent demoEnvC8).2.state.totalEarned = demoAgent.state.totalEarned :=
  ⟨rfl,
   (c8_failed_claim_harmless demoAgent demoEnvC8 20000000 demoFailEarn demoFailedClaim
      demoSpend rfl rfl rfl rfl rfl rfl).1,
   (c8_failed_claim_harmless demoAgent demoEnvC8 20000000 demoFailEarn demoFailedClaim
      demoSpend rfl rfl rfl rfl rfl rfl).2.1,
   (c8_failed_claim_harmless demoAgent demoEnvC8 20000000 demoFailEarn demoFailedClaim
      demoSpend rfl rfl rfl rfl rfl rfl).2.2⟩

/-! ### C9 — Error mode does not gate spending -/

/-- C9: when the adopted mode is Error (bounty board reachable, no
exception before the spend phase), the spending collaborator is still
invoked — the spend phase of the result carries its result — and each
successful protection is recorded as an expense entry, with the running
spent total increased by the gas of the successful protections. -/
theorem c9_error_mode_spends (a : AgentData) (env : CycleEnv) (b : Int)
    (hc : HealthCheckResult) (er : EarnResult) (sr : SpendResult)
    (hb : env.balanceOutcome = .ok b)
    (hh : healthCheck a env = .ok hc)
    (hm : hc.recommendedMode = .ERROR)
    (hr : env.bountyBoardReachable = true)
    (he : env.earnOutcome = .ok er)
    (hs : env.spendOutcome = .ok sr) :
    (runCycle a env).1.phases.spend = some sr ∧
    ((runCycle a env).2.ledger.entries.countP
        (fun e => e.direction == TransactionDirection.expense)) =
      a.ledger.entries.countP (fun e => e.direction == TransactionDirection.expense) +
        sr.protections.countP (fun p => p.success) ∧
    (runCycle a env).2.state.totalSpent =
      a.state.totalSpent + gasSumSucc sr.protections := by
  have hm2 : hc.recommendedMode ≠ .STARVATION := by
    rw [hm]
    exact fun h => AgentMode.noConfusion h
  have hh2 := healthCheck_ok a env b hb
  rw [hh] at hh2
  injection hh2 with hhc
  have hcr : hc.bountyBoardReachable = true := by rw [hhc]; exact hr
  rw [runCycle_spending a env hc er sr hh hcr he hm2 hs]
  refine ⟨rfl, ?_, ?_⟩
  · show ((applySpendProtections env sr.protections
          ((applyEarnClaims env er.claims (a.ledger, a.state.totalEarned)).1,
           a.state.totalSpent)).1.entries.countP
        (fun e => e.direction == TransactionDirection.expense)) =
      a.ledger.entries.countP (fun e => e.direction == TransactionDirection.expense) +
        sr.protections.countP (fun p => p.success)
    rw [applySpendProtections_expense_count, applyEarnClaims_expense_count]
  · show (applySpendProtections env sr.protections
        ((applyEarnClaims env er.claims (a.ledger, a.state.totalEarned)).1,
         a.state.totalSpent)).2 =
      a.state.totalSpent + gasSumSucc sr.protections
    exact (applySpendProtections_sums env sr.protections _ _).1

/-- C9 witness: the controller after three failures adopts Error mode and
still spends on the healthy environment. -/
theorem c9_error_mode_spends_witness :
    demoHCErr.recommendedMode = AgentMode.ERROR ∧
    (runCycle demoAgentErr demoEnv).1.phases.spend = some demoSpend ∧
    (runCycle demoAgentErr demoEnv).2.state.totalSpent =
      demoAgentErr.state.totalSpent + gasSumSucc demoSpend.protections :=
  ⟨rfl,
   (c9_error_mode_spends demoAgentErr demoEnv 20000000 demoHCErr demoEarn demoSpend
      rfl (by rfl) rfl rfl rfl rfl).1,
   (c9_error_mode_spends demoAgentErr demoEnv 20000000 demoHCErr demoEarn demoSpend
      rfl (by rfl) rfl rfl rfl rfl).2.2⟩

/-! ### C10 — counters and ledger move in lockstep -/

theorem runCycle_inv (a : AgentData) (env : CycleEnv)
    (h1 : a.state.totalEarned = incomeSum a.ledger.entries)
    (h2 : a.state.totalSpent = expenseSum a.ledger.entries) :
    (runCycle a env).2.state.totalEarned =
      incomeSum (runCycle a env).2.ledger.entries ∧
    (runCycle a env).2.state.totalSpent =
      expenseSum (runCycle a env).2.ledger.entries := by
  cases hb : env.balanceOutcome with
  | error e =>
      rw [runCycle_balance_error a env e hb]
      exact ⟨h1, h2⟩
  | ok b =>
      obtain ⟨hc, hh, hcr⟩ :
          ∃ hc, healthCheck a env = .ok hc ∧
            hc.bountyBoardReachable = env.bountyBoardReachable :=
        ⟨_, healthCheck_ok a env b hb, rfl⟩
      cases hr : env.bountyBoardReachable with
      | false =>
          rw [runCycle_unreachable a env hc hh (hcr.trans hr)]
          exact ⟨h1, h2⟩
      | true =>
          cases he : env.earnOutcome with
          | error e =>
              rw [runCycle_earn_error a env hc e hh (hcr.trans hr) he]
              exact ⟨h1, h2⟩
          | ok er =>
              obtain ⟨e1, e2, e3⟩ :=
                applyEarnClaims_sums env er.claims a.ledger a.state.totalEarned
              by_cases hm : hc.recommendedMode = .STARVATION
              · rw [runCycle_starving a env hc er hh (hcr.trans hr) he hm]
                constructor
                · show (applyEarnClaims env er.claims (a.ledger, a.state.totalEarned)).2 =
                    incomeSum
                      (applyEarnClaims env er.claims (a.ledger, a.state.totalEarned)).1.entries
                  omega
                · show a.state.totalSpent =
                    expenseSum
                      (applyEarnClaims env er.claims (a.ledger, a.state.totalEarned)).1.entries
                  omega
              · cases hs : env.spendOutcome with
                | error e =>
                    rw [runCycle_spend_error a env hc er e hh (hcr.trans hr) he hm hs]
                    constructor
                    · show (applyEarnClaims env er.claims (a.ledger, a.state.totalEarned)).2 =
                        incomeSum
                          (applyEarnClaims env er.claims (a.ledger, a.state.totalEarned)).1.entries
                      omega
                    · show a.state.totalSpent =
                        expenseSum
                          (applyEarnClaims env er.claims (a.ledger, a.state.totalEarned)).1.entries
                      omega
                | ok sr =>
                    obtain ⟨s1, s2, s3⟩ :=
                      applySpendProtections_sums env sr.protections
                        (applyEarnClaims env er.claims (a.ledger, a.state.totalEarned)).1
                        a.state.totalSpent
                    rw [runCycle_spending a env hc er sr hh (hcr.trans hr) he hm hs]
                    constructor
                    · show (applyEarnClaims env er.claims (a.ledger, a.state.totalEarned)).2 =
                        incomeSum
                          (applySpendProtections env sr.protections
                            ((applyEarnClaims env er.claims (a.ledger, a.state.totalEarned)).1,
                             a.state.totalSpent)).1.entries
                      omega
                    · show (applySpendProtections env sr.protections
                          ((applyEarnClaims env er.claims (a.ledger, a.state.totalEarned)).1,
                           a.state.totalSpent)).2 =
                        expenseSum
                          (applySpendProtections env sr.protections
                            ((applyEarnClaims env er.claims (a.ledger, a.state.totalEarned)).1,
                             a.state.totalSpent)).1.entries
                      omega

theorem runCycles_inv (a : AgentData) (envs : List CycleEnv)
    (h1 : a.state.totalEarned = incomeSum a.ledger.entries)
    (h2 : a.state.totalSpent = expenseSum a.ledger.entries) :
    (runCycles a envs).2.state.totalEarned =
      incomeSum (runCycles a envs).2.ledger.entries ∧
    (runCycles a envs).2.state.totalSpent =
      expenseSum (runCycles a envs).2.ledger.entries := by
  induction envs generalizing a with
  | nil => exact ⟨h1, h2⟩
  | cons e rest ih =>
      obtain ⟨k1, k2⟩ := runCycle_inv a e h1 h2
      simpa [runCycles] using ih (runCycle a e).2 k1 k2

/-- C10: after every sequence of runCycle invocations on a fresh
controller, the running earned total equals the sum of the income entries
of the ledger and the running spent total equals the sum of its expense
entries — the counters and the ledger are updated in lockstep. -/
theorem c10_lockstep (thr : Int) (interval : Nat) (network addr : String)
    (envs : List CycleEnv) :
    (runCycles (mkAgent thr interval network addr) envs).2.state.totalEarned =
      incomeSum (runCycles (mkAgent thr interval network addr) envs).2.ledger.entries ∧
    (runCycles (mkAgent thr interval network addr) envs).2.state.totalSpent =
      expenseSum (runCycles (mkAgent thr interval network addr) envs).2.ledger.entries :=
  runCycles_inv (mkAgent thr interval network addr) envs rfl rfl

end IMG
